import Mathlib

/-!
Shallow embedding of `src/flask_cassandra.py` (Flask-Cassandra 0.1.4).

Driver objects (`Cluster`, sessions, prepared statements) are modelled as
records carrying the arguments they were constructed from plus a numeric
identity drawn from a per-manager counter `fresh`, mirroring a driver mock
that returns a distinct instance on every constructor call.  Python dicts
are modelled as association lists with replace-on-insert semantics; Python
exceptions as an explicit error value returned next to the manager state,
since attribute mutations made before a `raise` survive it in the source.
-/

namespace FlaskCassandra

/-- Python `d[k]` lookup (`some v`) / missing key (`none`) on a dict modelled
as an association list; also serves as the `k in d` test. -/
def dget {κ α : Type} [DecidableEq κ] : List (κ × α) → κ → Option α
  | [], _ => none
  | (k', v) :: rest, k => if k' = k then some v else dget rest k

/-- Python `d[k] = v` on a dict modelled as an association list
(replace the existing binding, else append). -/
def dset {κ α : Type} [DecidableEq κ] : List (κ × α) → κ → α → List (κ × α)
  | [], k, v => [(k, v)]
  | (k', v') :: rest, k, v =>
    if k' = k then (k, v) :: rest else (k', v') :: dset rest k v

/-- Python truthiness of an optional string: `None` and `""` are falsy. -/
def truthy : Option String → Bool
  | none => false
  | some s => !s.isEmpty

/-- Python truthiness of an optional consistency level (an `int` in the
driver, where `ConsistencyLevel.ANY == 0`): `None` and `0` are falsy. -/
def truthyLevel : Option Nat → Bool
  | none => false
  | some l => l ≠ 0

/-- Model of `cassandra.auth.PlainTextAuthProvider(user, password)`. -/
structure PlainTextAuthProvider where
  username : String
  password : String
deriving Repr, DecidableEq

/-- A driver `Cluster` object: the constructor arguments it received plus the
`auth_provider` attribute assigned right after construction, plus a mock
identity so distinct constructor calls yield distinct values. -/
structure ClusterHandle where
  nodes : List String
  port : Nat
  auth_provider : Option PlainTextAuthProvider
  id : Nat
deriving Repr, DecidableEq

/-- A driver session: the keyspace it was connected to, its (mutable)
`default_consistency_level` attribute, and a mock identity. -/
structure Session where
  keyspace : String
  default_consistency_level : Option Nat
  id : Nat
deriving Repr, DecidableEq

/-- A driver prepared statement: the CQL text it was compiled from and a mock
identity. -/
structure PreparedStatement where
  text : String
  id : Nat
deriving Repr, DecidableEq

/-- A `CASSANDRA_NODES` config value: either a scalar string or a list. -/
inductive ConfigNodes : Type
  | str (s : String)
  | list (l : List String)
deriving Repr, DecidableEq

/-- The recognized keys of `app.config`; `none` stands both for an absent key
and for an explicit `None` (the two are indistinguishable after the
`setdefault` calls in `init_app`, whose defaults for the optional keys are
`None`). -/
structure AppConfig where
  CASSANDRA_CONSISTENCY_LEVEL : Option Nat
  CASSANDRA_NODES : Option ConfigNodes
  CASSANDRA_PORT : Option Nat
  CASSANDRA_USER : Option String
  CASSANDRA_PASSWORD : Option String
  CASSANDRA_KEYSPACE : Option String
deriving Repr, DecidableEq

/-- The Python exceptions that can escape the embedded operations. -/
inductive PyError : Type
  | valueError (msg : String)
  | keyError (key : String)
  | attributeError (attr : String)
deriving Repr, DecidableEq

/-- What `session.execute` received as its first argument: a prepared
statement, or (as actually happens at `execute_prepared`'s final line) a
whole inner name-to-statement dict. -/
inductive ExecuteArg : Type
  | stmt (s : PreparedStatement)
  | dict (d : List (String × PreparedStatement))
deriving Repr, DecidableEq

/-- The driver result set returned by `session.execute(query, params)`:
records exactly what was executed, with which parameters, on which session. -/
structure ResultSet where
  query : ExecuteArg
  params : List String
  session_id : Nat
deriving Repr, DecidableEq

/-- The state of a `CassandraCluster` manager instance.  `__session` is the
keyspace-to-session cache written by `connect`; `__sessions` is the distinct
attribute that `init_app` assigns (the source's line 83 writes
`self.__sessions = {}`, not `self.__session`); `__queries` is the
keyspace-to-(name-to-statement) prepared cache, whose outer key is the Python
value of the resolved keyspace (a string or `None`).  `fresh` is the mock
driver's instance counter. -/
structure CassandraCluster where
  cluster : Option ClusterHandle
  __primary_session : Option Session
  __session : List (String × Session)
  __sessions : List (String × Session)
  __queries : List (Option String × List (String × PreparedStatement))
  nodes : List String
  port : Nat
  user : Option String
  password : Option String
  keyspace : Option String
  default_consistency_level : Option Nat
  fresh : Nat
deriving Repr, DecidableEq

/-- Model of `CassandraCluster.__init__` with `app=None`.  (`__sessions` does not yet
exist in Python at this point; it is given the empty value here so the state
is total.) -/
def CassandraCluster.new : CassandraCluster :=
  { cluster := none
    __primary_session := none
    __session := []
    __sessions := []
    __queries := []
    nodes := []
    port := 9042
    user := none
    password := none
    keyspace := none
    default_consistency_level := none
    fresh := 0 }

/-- Model of `CassandraCluster.init_app(self, app)`.  Returns the updated manager and
the updated `app.config` (mutated by the `setdefault` calls and the
scalar-`CASSANDRA_NODES` normalization).  The source additionally shuts down
a context-local cluster if one is attached to the active context and
registers the `teardown` callback with the app; neither touches the manager
or config state modelled here. -/
def CassandraCluster.init_app (self : CassandraCluster) (config : AppConfig) :
    CassandraCluster × AppConfig :=
  -- Set some reasonable defaults for config values
  let config : AppConfig :=
    { CASSANDRA_CONSISTENCY_LEVEL := config.CASSANDRA_CONSISTENCY_LEVEL
      CASSANDRA_NODES := some (config.CASSANDRA_NODES.getD (ConfigNodes.list ["localhost"]))
      CASSANDRA_PORT := some (config.CASSANDRA_PORT.getD 9042)
      CASSANDRA_USER := config.CASSANDRA_USER
      CASSANDRA_PASSWORD := config.CASSANDRA_PASSWORD
      CASSANDRA_KEYSPACE := config.CASSANDRA_KEYSPACE }
  -- convert CASSANDRA_NODES to a list if it is a string
  let config : AppConfig :=
    match config.CASSANDRA_NODES with
    | some (ConfigNodes.str s) => { config with CASSANDRA_NODES := some (ConfigNodes.list [s]) }
    | _ => config
  let nodes : List String :=
    match config.CASSANDRA_NODES with
    | some (ConfigNodes.list l) => l
    | some (ConfigNodes.str s) => [s]
    | none => []
  ({ self with
      nodes := nodes
      port := config.CASSANDRA_PORT.getD 9042
      user := config.CASSANDRA_USER
      password := config.CASSANDRA_PASSWORD
      keyspace := config.CASSANDRA_KEYSPACE
      default_consistency_level := config.CASSANDRA_CONSISTENCY_LEVEL
      -- the source resets `self.__sessions` (a fresh attribute) and
      -- `self.__queries`, and nulls `self.cluster`; `self.__session`
      -- is left untouched
      __sessions := []
      __queries := []
      cluster := none },
    config)

/-- The `Cluster(...)` construction inside `connect` (source lines 189-198):
if no `Cluster` object exists yet, create one from the bound nodes and port
and, when there is authentication data in the config, assign its
`auth_provider` from the user and password. -/
def CassandraCluster.ensure_cluster (self : CassandraCluster) : CassandraCluster :=
  if self.cluster.isNone then
    { self with
      cluster := some
        { nodes := self.nodes
          port := self.port
          auth_provider :=
            if truthy self.user && truthy self.password then
              some { username := self.user.getD "", password := self.password.getD "" }
            else none
          id := self.fresh }
      fresh := self.fresh + 1 }
  else self

/-- Model of `CassandraCluster.connect(self, keyspace=None, level=None)`.  Returns the
session (or `None`) and the updated manager. -/
def CassandraCluster.connect (self : CassandraCluster) (keyspace : Option String)
    (level : Option Nat) : Option Session × CassandraCluster :=
  -- keyspace = keyspace or self.keyspace
  let keyspace := if truthy keyspace then keyspace else self.keyspace
  -- If we already have a Cluster object, reuse it.  Otherwise, create a new
  -- one; if there is authentication data in the config, use it.
  let self := self.ensure_cluster
  -- if not keyspace: return None
  if truthy keyspace = false then (none, self)
  else
    let ks := keyspace.getD ""
    -- If we already have a session to a keyspace, reuse it.
    match dget self.__session ks with
    | some s => (some s, self)
    | none =>
      let s0 : Session := { keyspace := ks, default_consistency_level := none, id := self.fresh }
      -- if level: set default_consistency_level
      let s := if truthyLevel level then { s0 with default_consistency_level := level } else s0
      (some s, { self with __session := dset self.__session ks s, fresh := self.fresh + 1 })

/-- The `session` property: `self.connect(keyspace=self.keyspace)`. -/
def CassandraCluster.session (self : CassandraCluster) : Option Session × CassandraCluster :=
  self.connect self.keyspace none

/-- Model of `get_session(self, keyspace)`: `self.connect(keyspace=keyspace)`. -/
def CassandraCluster.get_session (self : CassandraCluster) (keyspace : Option String) :
    Option Session × CassandraCluster :=
  self.connect keyspace none

/-- The `ValueError` message raised by `execute_prepared`, with the query
name formatted in. -/
def noQueryMsg (query_name : String) : String :=
  "No query prepared with name \x22" ++ query_name ++ "\x22 and query is not specified."

/-- The step `if keyspace not in self.__queries: self.__queries[keyspace] =
dict()` shared by `prepare_query` and `execute_prepared`. -/
def ensure_queries_entry (self : CassandraCluster) (keyspace : Option String) :
    CassandraCluster :=
  if (dget self.__queries keyspace).isSome then self
  else { self with __queries := dset self.__queries keyspace [] }

/-- Model of `CassandraCluster.prepare_query(self, query_name, query,
keyspace=None, force=False)`.  The error component is `attributeError` when the resolved
keyspace is falsy (then `connect` returned `None` and `session.prepare`
fails on `NoneType`). -/
def CassandraCluster.prepare_query (self : CassandraCluster) (query_name : String)
    (query : String) (keyspace : Option String) (force : Bool) :
    Except PyError PreparedStatement × CassandraCluster :=
  -- keyspace = keyspace or self.keyspace
  let keyspace := if truthy keyspace then keyspace else self.keyspace
  let c := self.connect keyspace none
  let sessionOpt := c.1
  -- if keyspace not in self.__queries: self.__queries[keyspace] = dict()
  let self := ensure_queries_entry c.2 keyspace
  let inner := (dget self.__queries keyspace).getD []
  -- if force or query_name not in self.__queries[keyspace]:
  if force || (dget inner query_name).isNone then
    match sessionOpt with
    | none => (Except.error (PyError.attributeError "prepare"), self)
    | some _ =>
      -- self.__queries[keyspace][query_name] = session.prepare(query)
      let st : PreparedStatement := { text := query, id := self.fresh }
      let self := { self with
        fresh := self.fresh + 1
        __queries := dset self.__queries keyspace (dset inner query_name st) }
      (Except.ok st, self)
  else
    -- return self.__queries[keyspace][query_name]
    match dget inner query_name with
    | some st => (Except.ok st, self)
    | none => (Except.error (PyError.keyError query_name), self)

/-- Model of `CassandraCluster.execute_prepared(self, query_name,
keyspace=None, query=None, params=[])`.  Note the final line of the source executes
`self.__queries[query_name]`: the OUTER dict (keyed by keyspace) indexed by
the query name. -/
def CassandraCluster.execute_prepared (self : CassandraCluster) (query_name : String)
    (keyspace : Option String) (query : Option String) (params : List String) :
    Except PyError ResultSet × CassandraCluster :=
  -- keyspace = keyspace or self.keyspace
  let keyspace := if truthy keyspace then keyspace else self.keyspace
  let c := self.connect keyspace none
  let sessionOpt := c.1
  -- if keyspace not in self.__queries: self.__queries[keyspace] = dict()
  let self := ensure_queries_entry c.2 keyspace
  let inner := (dget self.__queries keyspace).getD []
  -- if query_name not in self.__queries[keyspace]: raise or prepare
  let step : Option PyError × CassandraCluster :=
    if (dget inner query_name).isNone then
      match query with
      | none => (some (PyError.valueError (noQueryMsg query_name)), self)
      | some q =>
        match self.prepare_query query_name q keyspace false with
        | (Except.ok _, self) => (none, self)
        | (Except.error e, self) => (some e, self)
    else (none, self)
  match step with
  | (some e, self) => (Except.error e, self)
  | (none, self) =>
    -- return session.execute(self.__queries[query_name], params)
    match sessionOpt with
    | none => (Except.error (PyError.attributeError "execute"), self)
    | some s =>
      match dget self.__queries (some query_name) with
      | none => (Except.error (PyError.keyError query_name), self)
      | some obj =>
        (Except.ok { query := ExecuteArg.dict obj, params := params, session_id := s.id }, self)

/-- A request/application context's local storage slot.  `none` models
`hasattr(ctx, 'cassandra_cluster')` being false. -/
structure AppCtx where
  cassandra_cluster : Option ClusterHandle
deriving Repr, DecidableEq

/-- The `connection` property: reads `stack.top`; with no active context it
returns `None` and touches nothing, otherwise it lazily populates the
context-local slot from `self.connect()` and returns it.  Returns the
property value, the updated manager, and the updated context. -/
def CassandraCluster.connection (self : CassandraCluster) (ctx : Option AppCtx) :
    Option ClusterHandle × CassandraCluster × Option AppCtx :=
  match ctx with
  | none => (none, self, none)
  | some c =>
    match c.cassandra_cluster with
    | some cl => (some cl, self, some c)
    | none =>
      let r := self.connect none none
      let self := r.2
      (self.cluster, self, some { cassandra_cluster := self.cluster })

/-- The prepared statement currently cached under `(keyspace, name)`:
`self.__queries[keyspace][query_name]` as an observer. -/
def cachedStatement (self : CassandraCluster) (keyspace : Option String)
    (query_name : String) : Option PreparedStatement :=
  dget ((dget self.__queries keyspace).getD []) query_name


theorem dget_dset_self {κ α : Type} [DecidableEq κ] (d : List (κ × α)) (k : κ) (v : α) :
    dget (dset d k v) k = some v := by
  induction d with
  | nil => simp [dget, dset]
  | cons hd tl ih =>
    by_cases h : hd.1 = k <;> simp [dget, dset, h, ih]

theorem dget_dset_ne {κ α : Type} [DecidableEq κ] (d : List (κ × α)) (k k' : κ) (v : α)
    (h : k' ≠ k) : dget (dset d k v) k' = dget d k' := by
  induction d with
  | nil => simp [dget, dset, Ne.symm h]
  | cons hd tl ih =>
    by_cases h2 : hd.1 = k
    · simp [dget, dset, h2, Ne.symm h]
    · by_cases h3 : hd.1 = k' <;> simp [dget, dset, h, h2, h3, ih]

theorem ensure_cluster_of_some (m : CassandraCluster) (c : ClusterHandle)
    (h : m.cluster = some c) : m.ensure_cluster = m := by
  simp [CassandraCluster.ensure_cluster, h]

theorem ensure_cluster_of_none (m : CassandraCluster) (h : m.cluster = none) :
    m.ensure_cluster =
      { m with
        cluster := some
          { nodes := m.nodes
            port := m.port
            auth_provider :=
              if truthy m.user && truthy m.password then
                some { username := m.user.getD "", password := m.password.getD "" }
              else none
            id := m.fresh }
        fresh := m.fresh + 1 } := by
  simp [CassandraCluster.ensure_cluster, h]

theorem ensure_cluster_session (m : CassandraCluster) :
    m.ensure_cluster.__session = m.__session := by
  unfold CassandraCluster.ensure_cluster
  split <;> rfl

theorem ensure_cluster_queries (m : CassandraCluster) :
    m.ensure_cluster.__queries = m.__queries := by
  unfold CassandraCluster.ensure_cluster
  split <;> rfl

theorem ensure_cluster_keyspace (m : CassandraCluster) :
    m.ensure_cluster.keyspace = m.keyspace := by
  unfold CassandraCluster.ensure_cluster
  split <;> rfl

theorem ensure_cluster_isSome (m : CassandraCluster) :
    m.ensure_cluster.cluster.isSome = true := by
  unfold CassandraCluster.ensure_cluster
  split <;> simp_all [Option.isNone_iff_eq_none]
  cases h : m.cluster <;> simp_all

theorem ensure_fresh_le (m : CassandraCluster) : m.fresh ≤ m.ensure_cluster.fresh := by
  unfold CassandraCluster.ensure_cluster
  split <;> simp

theorem connect_hit' (m : CassandraCluster) (ks : Option String) (lvl : Option Nat)
    (k : String) (s : Session)
    (hr : (if truthy ks then ks else m.keyspace) = some k)
    (hk : truthy (some k) = true) (h : dget m.__session k = some s) :
    m.connect ks lvl = (some s, m.ensure_cluster) := by
  unfold CassandraCluster.connect
  simp only [hr, hk, ensure_cluster_session, Option.getD_some]
  simp [h]

theorem connect_miss' (m : CassandraCluster) (ks : Option String) (lvl : Option Nat)
    (k : String)
    (hr : (if truthy ks then ks else m.keyspace) = some k)
    (hk : truthy (some k) = true) (h : dget m.__session k = none) :
    m.connect ks lvl =
      (some { keyspace := k
              default_consistency_level := if truthyLevel lvl then lvl else none
              id := m.ensure_cluster.fresh },
       { m.ensure_cluster with
          __session := dset m.__session k
            { keyspace := k
              default_consistency_level := if truthyLevel lvl then lvl else none
              id := m.ensure_cluster.fresh }
          fresh := m.ensure_cluster.fresh + 1 }) := by
  unfold CassandraCluster.connect
  simp only [hr, hk, ensure_cluster_session, Option.getD_some]
  simp [h]
  split <;> simp

theorem connect_falsy' (m : CassandraCluster) (ks : Option String) (lvl : Option Nat)
    (h : truthy (if truthy ks then ks else m.keyspace) = false) :
    m.connect ks lvl = (none, m.ensure_cluster) := by
  unfold CassandraCluster.connect
  simp [h]

theorem dget_mem {κ α : Type} [DecidableEq κ] (d : List (κ × α)) (k : κ) (v : α)
    (h : dget d k = some v) : (k, v) ∈ d := by
  induction d with
  | nil => simp [dget] at h
  | cons hd tl ih =>
    by_cases h2 : hd.1 = k
    · simp [dget, h2] at h
      have h3 : hd = (k, v) := by cases hd; simp_all
      rw [h3]
      exact List.mem_cons_self _ _
    · simp [dget, h2] at h
      exact List.mem_cons_of_mem _ (ih h)

theorem mem_dset {κ α : Type} [DecidableEq κ] (d : List (κ × α)) (k : κ) (v : α)
    (p : κ × α) (h : p ∈ dset d k v) : p = (k, v) ∨ p ∈ d := by
  induction d with
  | nil => simp [dset] at h; simp [h]
  | cons hd tl ih =>
    by_cases h2 : hd.1 = k
    · simp [dset, h2] at h
      rcases h with h | h
      · left; simp [h]
      · right; simp [h]
    · simp [dset, h2] at h
      rcases h with h | h
      · right; simp [h]
      · rcases ih h with h3 | h3
        · left; exact h3
        · right; simp [h3]

theorem pairwise_keys_dset {α : Type} (d : List (String × α)) (k : String) (v : α)
    (h : d.Pairwise (fun p q => p.1 ≠ q.1)) :
    (dset d k v).Pairwise (fun p q => p.1 ≠ q.1) := by
  induction d with
  | nil => simp [dset]
  | cons hd tl ih =>
    obtain ⟨k2, v2⟩ := hd
    rw [List.pairwise_cons] at h
    by_cases h2 : k2 = k
    · subst h2
      have hEq : dset ((k2, v2) :: tl) k2 v = (k2, v) :: tl := by simp [dset]
      rw [hEq, List.pairwise_cons]
      exact ⟨fun q hq => h.1 q hq, h.2⟩
    · simp only [dset, if_neg h2]
      rw [List.pairwise_cons]
      refine ⟨?_, ih h.2⟩
      intro q hq
      rcases mem_dset tl k v q hq with h3 | h3
      · rw [h3]; exact h2
      · exact h.1 q h3

/-- Invariants tying the mock driver's instance counter to the session
cache: every cached session id is below `fresh`, sessions cached under
different keyspaces are distinct instances, and no keyspace occurs twice
in the cache (at most one session per keyspace). -/
def SessionInv (m : CassandraCluster) : Prop :=
  (∀ p ∈ m.__session, p.2.id < m.fresh) ∧
  (∀ p ∈ m.__session, ∀ q ∈ m.__session, p.1 ≠ q.1 → p.2.id ≠ q.2.id) ∧
  m.__session.Pairwise (fun p q => p.1 ≠ q.1)

theorem SessionInv_ensure (m : CassandraCluster) (h : SessionInv m) :
    SessionInv m.ensure_cluster := by
  obtain ⟨h1, h2, h3⟩ := h
  refine ⟨?_, ?_, ?_⟩ <;> rw [ensure_cluster_session]
  · intro p hp
    exact lt_of_lt_of_le (h1 p hp) (ensure_fresh_le m)
  · exact h2
  · exact h3

theorem SessionInv_connect (m : CassandraCluster) (ks : Option String) (lvl : Option Nat)
    (h : SessionInv m) : SessionInv (m.connect ks lvl).2 := by
  by_cases ht : truthy (if truthy ks then ks else m.keyspace)
  · cases hr : (if truthy ks then ks else m.keyspace) with
    | none => rw [hr] at ht; simp [truthy] at ht
    | some k =>
      rw [hr] at ht
      cases hs : dget m.__session k with
      | some s =>
        rw [connect_hit' m ks lvl k s hr ht hs]
        exact SessionInv_ensure m h
      | none =>
        rw [connect_miss' m ks lvl k hr ht hs]
        obtain ⟨h1, h2, h3⟩ := SessionInv_ensure m h
        rw [ensure_cluster_session] at h1 h2 h3
        refine ⟨?_, ?_, ?_⟩
        · intro p hp
          rcases mem_dset _ _ _ p hp with h4 | h4
          · rw [h4]; simp
          · exact lt_trans (h1 p h4) (Nat.lt_succ_self _)
        · intro p hp q hq hne
          rcases mem_dset _ _ _ p hp with h4 | h4 <;>
            rcases mem_dset _ _ _ q hq with h5 | h5
          · rw [h4, h5] at hne; simp at hne
          · rw [h4]; exact fun hcon => absurd (hcon ▸ h1 q h5) (by simp)
          · rw [h5]; exact fun hcon => absurd (hcon ▸ h1 p h4) (by simp [hcon])
          · exact h2 p h4 q h5 hne
        · exact pairwise_keys_dset _ _ _ h3
  · rw [connect_falsy' m ks lvl (by simpa using ht)]
    exact SessionInv_ensure m h


deriving instance DecidableEq for Except

/-- The effective keyspace of a call: the argument if truthy, else the
manager's default (`keyspace = keyspace or self.keyspace`). -/
def resolvedKeyspace (m : CassandraCluster) (ks : Option String) : Option String :=
  if truthy ks then ks else m.keyspace

/-- A configuration with default keyspace "ks", nodes ["h1"], port 1234. -/
def cfgKs : AppConfig :=
  { CASSANDRA_CONSISTENCY_LEVEL := none
    CASSANDRA_NODES := some (ConfigNodes.list ["h1"])
    CASSANDRA_PORT := some 1234
    CASSANDRA_USER := none
    CASSANDRA_PASSWORD := none
    CASSANDRA_KEYSPACE := some "ks" }

/-- A manager freshly bound with `cfgKs`. -/
def mgr0 : CassandraCluster := (CassandraCluster.new.init_app cfgKs).1

/-- State of `mgr0` after `connect("ks")`: cluster built, session for "ks" cached. -/
def c1_m2 : CassandraCluster := (mgr0.connect (some "ks") none).2

/-- A re-bind of `c1_m2` with a changed configuration (new port). -/
def c1_m3 : CassandraCluster :=
  (c1_m2.init_app { cfgKs with CASSANDRA_PORT := some 9999 }).1

/-- Claim C1 (code bug): re-`Bind`-ing nulls the ClusterHandle and clears the
prepared-statement cache, but does NOT discard the cached Sessions —
`init_app` assigns the unrelated attribute `__sessions` instead of the
session cache `__session` (its own comment says it resets sessions) — so a
`connect` after the re-bind returns the Session cached before it instead of
a fresh driver object. -/
theorem C1_rebind_returns_stale_session :
    c1_m3.cluster = none
    ∧ c1_m3.__queries = []
    ∧ c1_m3.__session = c1_m2.__session
    ∧ c1_m3.__session ≠ []
    ∧ (c1_m3.connect (some "ks") none).1 = (mgr0.connect (some "ks") none).1 := by
  decide

/-- State of `mgr0` after `prepare_query("q", "SELECT 1")`: the statement is cached
under keyspace "ks", name "q". -/
def c2_mp : CassandraCluster := (mgr0.prepare_query "q" "SELECT 1" none false).2

/-- Claim C2 (code bug): although the statement for name "q" is cached under
the effective keyspace "ks", `execute_prepared("q")` raises `KeyError("q")`
instead of executing it: its final line indexes the OUTER per-keyspace dict
with the query name (`self.__queries[query_name]`). -/
theorem C2_execute_uses_wrong_lookup_key :
    cachedStatement c2_mp (some "ks") "q" = some { text := "SELECT 1", id := 2 }
    ∧ (c2_mp.execute_prepared "q" none none []).1
        = Except.error (PyError.keyError "q") := by
  decide

/-- Counterexample for claim C3: on the freshly bound `mgr0`, executing an
unprepared name with no query text does raise the `ValueError`, but the
manager's state is NOT unchanged: the call creates and caches the cluster
and a session for "ks" and inserts an empty statement map. -/
theorem C3_error_mutates_state :
    (mgr0.execute_prepared "q" none none []).1
        = Except.error (PyError.valueError (noQueryMsg "q"))
    ∧ (mgr0.execute_prepared "q" none none []).2 ≠ mgr0
    ∧ (mgr0.execute_prepared "q" none none []).2.__session ≠ mgr0.__session := by
  decide


theorem truthy_some_of_ne (k : String) (h : k ≠ "") : truthy (some k) = true := by
  have h2 : k.isEmpty = false := by
    rw [Bool.eq_false_iff]
    intro hT
    exact h ((String.isEmpty_iff k).mp hT)
  simp [truthy, h2]

theorem resolvedKeyspace_some (m : CassandraCluster) (k : String) (h : k ≠ "") :
    resolvedKeyspace m (some k) = some k := by
  simp [resolvedKeyspace, truthy_some_of_ne k h]

/-- Case eliminator for `connect`: the call either short-circuits on a falsy
effective keyspace, hits the session cache, or creates a new session. -/
theorem connect_cases (m : CassandraCluster) (ks : Option String) (lvl : Option Nat)
    (P : Option Session × CassandraCluster → Prop)
    (hfalsy : truthy (resolvedKeyspace m ks) = false → P (none, m.ensure_cluster))
    (hhit : ∀ k s, resolvedKeyspace m ks = some k → truthy (some k) = true →
      dget m.__session k = some s → P (some s, m.ensure_cluster))
    (hmiss : ∀ k, resolvedKeyspace m ks = some k → truthy (some k) = true →
      dget m.__session k = none →
      P (some { keyspace := k
                default_consistency_level := if truthyLevel lvl then lvl else none
                id := m.ensure_cluster.fresh },
         { m.ensure_cluster with
            __session := dset m.__session k
              { keyspace := k
                default_consistency_level := if truthyLevel lvl then lvl else none
                id := m.ensure_cluster.fresh }
            fresh := m.ensure_cluster.fresh + 1 })) :
    P (m.connect ks lvl) := by
  by_cases ht : truthy (resolvedKeyspace m ks)
  · cases hr : resolvedKeyspace m ks with
    | none => rw [hr] at ht; simp [truthy] at ht
    | some k =>
      rw [hr] at ht
      cases hs : dget m.__session k with
      | some s =>
        rw [connect_hit' m ks lvl k s hr ht hs]
        exact hhit k s hr ht hs
      | none =>
        rw [connect_miss' m ks lvl k hr ht hs]
        exact hmiss k hr ht hs
  · rw [connect_falsy' m ks lvl (by simpa using ht)]
    exact hfalsy (by simpa using ht)

theorem connect_queries (m : CassandraCluster) (ks : Option String) (lvl : Option Nat) :
    (m.connect ks lvl).2.__queries = m.__queries := by
  refine connect_cases m ks lvl (fun r => r.2.__queries = m.__queries) ?_ ?_ ?_ <;>
    intros <;> simp [ensure_cluster_queries]

theorem connect_keyspace_eq (m : CassandraCluster) (ks : Option String) (lvl : Option Nat) :
    (m.connect ks lvl).2.keyspace = m.keyspace := by
  refine connect_cases m ks lvl (fun r => r.2.keyspace = m.keyspace) ?_ ?_ ?_ <;>
    intros <;> simp [ensure_cluster_keyspace]

theorem connect_cluster_eq (m : CassandraCluster) (ks : Option String) (lvl : Option Nat) :
    (m.connect ks lvl).2.cluster = m.ensure_cluster.cluster := by
  refine connect_cases m ks lvl (fun r => r.2.cluster = m.ensure_cluster.cluster) ?_ ?_ ?_ <;>
    intros <;> rfl

theorem connect_cluster_isSome (m : CassandraCluster) (ks : Option String) (lvl : Option Nat) :
    (m.connect ks lvl).2.cluster.isSome = true := by
  rw [connect_cluster_eq]
  exact ensure_cluster_isSome m

theorem connect_fst_isSome (m : CassandraCluster) (ks : Option String) (lvl : Option Nat)
    (h : truthy (resolvedKeyspace m ks) = true) :
    (m.connect ks lvl).1.isSome = true := by
  refine connect_cases m ks lvl (fun r => r.1.isSome = true) ?_ ?_ ?_ <;> intros <;> simp_all


/-- A configuration whose user is set to the empty string. -/
def c4_cfg : AppConfig :=
  { CASSANDRA_CONSISTENCY_LEVEL := none
    CASSANDRA_NODES := some (ConfigNodes.list ["h1"])
    CASSANDRA_PORT := some 1234
    CASSANDRA_USER := some ""
    CASSANDRA_PASSWORD := some "p"
    CASSANDRA_KEYSPACE := none }

/-- Manager bound with `c4_cfg`: both credentials are set (non-`None`), the
user to the empty string. -/
def c4_m : CassandraCluster := (CassandraCluster.new.init_app c4_cfg).1

/-- Counterexample for claim C4: both user and password are set (user to `""`),
yet the constructed cluster carries no auth provider — the source guards on
Python truthiness (`if self.user and self.password`), not on being set. -/
theorem C4_empty_user_no_auth :
    c4_m.user = some "" ∧ c4_m.password = some "p" ∧ c4_m.cluster = none
    ∧ (c4_m.connect none none).2.cluster
        = some { nodes := ["h1"], port := 1234, auth_provider := none, id := 0 } := by
  decide

/-- Claim C4 (amended): when `connect` constructs the ClusterHandle it passes
exactly the bound node list and bound port, and attaches a plaintext auth
provider built from (user, password) if and only if both are set to
non-empty strings; otherwise no auth provider is attached. -/
theorem C4_cluster_receives_nodes_port_auth (m : CassandraCluster) (ks : Option String)
    (lvl : Option Nat) (h : m.cluster = none) :
    ∃ cl, (m.connect ks lvl).2.cluster = some cl
      ∧ cl.nodes = m.nodes
      ∧ cl.port = m.port
      ∧ (∀ u p, m.user = some u → m.password = some p → u ≠ "" → p ≠ "" →
          cl.auth_provider = some { username := u, password := p })
      ∧ ((truthy m.user = false ∨ truthy m.password = false) → cl.auth_provider = none) := by
  rw [connect_cluster_eq, ensure_cluster_of_none m h]
  refine ⟨_, rfl, rfl, rfl, ?_, ?_⟩
  · intro u p hu hp hune hpne
    simp [hu, hp, truthy_some_of_ne u hune, truthy_some_of_ne p hpne, Option.getD]
  · intro hor
    rcases hor with hf | hf <;> simp [hf]

/-- A configuration matching the spec scenario: nodes `["h1"]`, port 1234,
user `"u"`, password `"p"`. -/
def c4w_cfg : AppConfig :=
  { c4_cfg with CASSANDRA_USER := some "u" }

/-- Manager bound with `c4w_cfg`. -/
def c4w_m : CassandraCluster := (CassandraCluster.new.init_app c4w_cfg).1

/-- Witness for `C4_cluster_receives_nodes_port_auth` at the spec's concrete
scenario. -/
theorem C4_cluster_receives_nodes_port_auth_witness :
    c4w_m.cluster = none
    ∧ ∃ cl, (c4w_m.connect none none).2.cluster = some cl
      ∧ cl.nodes = c4w_m.nodes
      ∧ cl.port = c4w_m.port
      ∧ (∀ u p, c4w_m.user = some u → c4w_m.password = some p → u ≠ "" → p ≠ "" →
          cl.auth_provider = some { username := u, password := p })
      ∧ ((truthy c4w_m.user = false ∨ truthy c4w_m.password = false) →
          cl.auth_provider = none) :=
  ⟨by decide, C4_cluster_receives_nodes_port_auth c4w_m none none (by decide)⟩

/-- Claim C6: on a manager with no truthy default keyspace, `connect()` with no
keyspace argument returns no session (not an error), while still ensuring
the ClusterHandle exists afterwards. -/
theorem C6_no_keyspace_returns_none (m : CassandraCluster) (lvl : Option Nat)
    (h : truthy m.keyspace = false) :
    (m.connect none lvl).1 = none ∧ (m.connect none lvl).2.cluster.isSome = true := by
  have hc : truthy (if truthy (none : Option String) then (none : Option String)
      else m.keyspace) = false := by
    simpa [truthy] using h
  rw [connect_falsy' m none lvl hc]
  exact ⟨rfl, ensure_cluster_isSome m⟩

/-- Witness for `C6_no_keyspace_returns_none`: `c4_m` is bound with no
default keyspace. -/
theorem C6_no_keyspace_returns_none_witness :
    truthy c4_m.keyspace = false
    ∧ (c4_m.connect none none).1 = none
    ∧ (c4_m.connect none none).2.cluster.isSome = true :=
  ⟨by decide, C6_no_keyspace_returns_none c4_m none (by decide)⟩

/-- Claim C7: `init_app` normalizes a scalar-string `CASSANDRA_NODES` to the
one-element list (both in the config and as the manager's node list); a list
value is used unchanged as the manager's node list. -/
theorem C7_nodes_normalization (m : CassandraCluster) (cfg : AppConfig) :
    (∀ s, cfg.CASSANDRA_NODES = some (ConfigNodes.str s) →
      (m.init_app cfg).1.nodes = [s]
      ∧ (m.init_app cfg).2.CASSANDRA_NODES = some (ConfigNodes.list [s]))
    ∧ (∀ l, cfg.CASSANDRA_NODES = some (ConfigNodes.list l) →
      (m.init_app cfg).1.nodes = l) := by
  constructor
  · intro s h
    constructor <;> simp [CassandraCluster.init_app, h]
  · intro l h
    simp [CassandraCluster.init_app, h]

/-- Witness for `C7_nodes_normalization` at a scalar and at a list input. -/
theorem C7_nodes_normalization_witness :
    ({ c4_cfg with CASSANDRA_NODES := some (ConfigNodes.str "h9") }.CASSANDRA_NODES
        = some (ConfigNodes.str "h9")
      ∧ (CassandraCluster.new.init_app
          { c4_cfg with CASSANDRA_NODES := some (ConfigNodes.str "h9") }).1.nodes = ["h9"]
      ∧ (CassandraCluster.new.init_app
          { c4_cfg with CASSANDRA_NODES := some (ConfigNodes.str "h9") }).2.CASSANDRA_NODES
        = some (ConfigNodes.list ["h9"]))
    ∧ (cfgKs.CASSANDRA_NODES = some (ConfigNodes.list ["h1"])
      ∧ (CassandraCluster.new.init_app cfgKs).1.nodes = ["h1"]) :=
  ⟨⟨by decide,
    (C7_nodes_normalization CassandraCluster.new
      { c4_cfg with CASSANDRA_NODES := some (ConfigNodes.str "h9") }).1 "h9" (by decide)⟩,
   by decide,
   (C7_nodes_normalization CassandraCluster.new cfgKs).2 ["h1"] (by decide)⟩


/-- Counterexample for claim C8: a state with a cached Session for "ks" but a null
ClusterHandle is reachable (re-bind keeps the session cache while nulling
the cluster), and on it a cache-hit `connect("ks", 5)` is NOT a no-op: it
constructs a new ClusterHandle. -/
theorem C8_cache_hit_rebuilds_cluster :
    dget c1_m3.__session "ks"
      = some { keyspace := "ks", default_consistency_level := none, id := 1 }
    ∧ c1_m3.cluster = none
    ∧ (c1_m3.connect (some "ks") (some 5)).2.cluster ≠ c1_m3.cluster := by
  decide

/-- Claim C8 (amended): if the Session for a (nonempty) keyspace is already
cached and the ClusterHandle exists, `connect` returns the cached Session
unchanged for any consistency-level argument and the whole manager state —
session cache, cluster handle, cached session's level — is left unmodified. -/
theorem C8_cache_hit_is_noop (m : CassandraCluster) (k : String) (lvl : Option Nat)
    (s : Session) (c : ClusterHandle) (hk : k ≠ "")
    (hs : dget m.__session k = some s) (hc : m.cluster = some c) :
    m.connect (some k) lvl = (some s, m) := by
  have ht := truthy_some_of_ne k hk
  rw [connect_hit' m (some k) lvl k s (by simp [ht]) ht hs]
  rw [ensure_cluster_of_some m c hc]

/-- Witness for `C8_cache_hit_is_noop` on the manager `c1_m2`, whose "ks"
session and cluster both exist. -/
theorem C8_cache_hit_is_noop_witness :
    ("ks" : String) ≠ ""
    ∧ dget c1_m2.__session "ks"
        = some { keyspace := "ks", default_consistency_level := none, id := 1 }
    ∧ c1_m2.cluster = some { nodes := ["h1"], port := 1234, auth_provider := none, id := 0 }
    ∧ c1_m2.connect (some "ks") (some 7)
        = (some { keyspace := "ks", default_consistency_level := none, id := 1 }, c1_m2) :=
  ⟨by decide, by decide, by decide,
   C8_cache_hit_is_noop c1_m2 "ks" (some 7)
     { keyspace := "ks", default_consistency_level := none, id := 1 }
     { nodes := ["h1"], port := 1234, auth_provider := none, id := 0 }
     (by decide) (by decide) (by decide)⟩

/-- Counterexample for claim C9: with no Session cached for "ks", calling
`connect("ks", 0)` supplies a consistency level (`ConsistencyLevel.ANY`,
whose numeric value is 0), yet the new session's level is left unset: the
source guards the assignment with `if level:`, which is false for 0. -/
theorem C9_level_zero_not_applied :
    dget mgr0.__session "ks" = none
    ∧ (mgr0.connect (some "ks") (some 0)).1
        = some { keyspace := "ks", default_consistency_level := none, id := 1 } := by
  decide

/-- Claim C9 (amended): for a nonempty keyspace with no cached Session,
`connect(k, level)` creates a brand-new Session bound to `k` (distinct from
every cached one), sets its consistency level whenever a truthy (non-zero)
level was supplied and leaves it unset otherwise, caches it under `k`,
returns it, and ensures the ClusterHandle exists. -/
theorem C9_connect_creates_session (m : CassandraCluster) (k : String) (lvl : Option Nat)
    (hk : k ≠ "") (hs : dget m.__session k = none)
    (hids : ∀ p ∈ m.__session, p.2.id < m.fresh) :
    ∃ s, (m.connect (some k) lvl).1 = some s
      ∧ s.keyspace = k
      ∧ (truthyLevel lvl = true → s.default_consistency_level = lvl)
      ∧ (truthyLevel lvl = false → s.default_consistency_level = none)
      ∧ dget (m.connect (some k) lvl).2.__session k = some s
      ∧ (∀ p ∈ m.__session, p.2 ≠ s)
      ∧ (m.connect (some k) lvl).2.cluster.isSome = true := by
  have ht := truthy_some_of_ne k hk
  rw [connect_miss' m (some k) lvl k (by simp [ht]) ht hs]
  refine ⟨_, rfl, rfl, ?_, ?_, ?_, ?_, ?_⟩
  · intro hl; simp [hl]
  · intro hl; simp [hl]
  · simp [dget_dset_self]
  · intro p hp hcon
    have h1 : p.2.id < m.fresh := hids p hp
    have h2 : m.fresh ≤ m.ensure_cluster.fresh := ensure_fresh_le m
    have h3 : p.2.id = m.ensure_cluster.fresh := by rw [hcon]
    omega
  · exact ensure_cluster_isSome m

/-- Witness for `C9_connect_creates_session` on `mgr0` with level 2. -/
theorem C9_connect_creates_session_witness :
    ("ks" : String) ≠ "" ∧ dget mgr0.__session "ks" = none
    ∧ (∀ p ∈ mgr0.__session, p.2.id < mgr0.fresh)
    ∧ ∃ s, (mgr0.connect (some "ks") (some 2)).1 = some s
      ∧ s.keyspace = "ks"
      ∧ (truthyLevel (some 2) = true → s.default_consistency_level = some 2)
      ∧ (truthyLevel (some 2) = false → s.default_consistency_level = none)
      ∧ dget (mgr0.connect (some "ks") (some 2)).2.__session "ks" = some s
      ∧ (∀ p ∈ mgr0.__session, p.2 ≠ s)
      ∧ (mgr0.connect (some "ks") (some 2)).2.cluster.isSome = true :=
  ⟨by decide, by decide, by decide,
   C9_connect_creates_session mgr0 "ks" (some 2) (by decide) (by decide) (by decide)⟩


theorem SessionInv_nil (m : CassandraCluster) (h : m.__session = []) : SessionInv m := by
  refine ⟨?_, ?_, ?_⟩ <;> rw [h] <;> simp

theorem connect_first_result (m : CassandraCluster) (k : String) (l : Option Nat)
    (hk : k ≠ "") :
    ∃ s, (m.connect (some k) l).1 = some s
      ∧ dget (m.connect (some k) l).2.__session k = some s
      ∧ (m.connect (some k) l).2.cluster.isSome = true := by
  have ht := truthy_some_of_ne k hk
  cases hs : dget m.__session k with
  | some s =>
    rw [connect_hit' m (some k) l k s (by simp [ht]) ht hs]
    exact ⟨s, rfl, by rw [ensure_cluster_session]; exact hs, ensure_cluster_isSome m⟩
  | none =>
    rw [connect_miss' m (some k) l k (by simp [ht]) ht hs]
    exact ⟨_, rfl, by simp [dget_dset_self], ensure_cluster_isSome m⟩

theorem connect_twice (m : CassandraCluster) (k : String) (l1 l2 : Option Nat)
    (hk : k ≠ "") :
    (m.connect (some k) l1).2.connect (some k) l2
      = ((m.connect (some k) l1).1, (m.connect (some k) l1).2) := by
  obtain ⟨s, h1, h2, h3⟩ := connect_first_result m k l1 hk
  obtain ⟨c, hc⟩ := Option.isSome_iff_exists.mp h3
  have ht := truthy_some_of_ne k hk
  have h4 := connect_hit' (m.connect (some k) l1).2 (some k) l2 k s (by simp [ht]) ht h2
  rw [ensure_cluster_of_some _ c hc] at h4
  rw [h4, h1]

theorem connect_other_keyspace_ne (n : CassandraCluster) (k k' : String) (l : Option Nat)
    (s1 : Session) (hk' : k' ≠ "") (hne : k' ≠ k) (hInv : SessionInv n)
    (hs1 : dget n.__session k = some s1) :
    (n.connect (some k') l).1 ≠ some s1 := by
  have ht' := truthy_some_of_ne k' hk'
  cases hs' : dget n.__session k' with
  | some s' =>
    rw [connect_hit' n (some k') l k' s' (by simp [ht']) ht' hs']
    intro hcon
    have hss : s' = s1 := Option.some.inj (by simpa using hcon)
    exact hInv.2.1 (k', s') (dget_mem _ _ _ hs') (k, s1) (dget_mem _ _ _ hs1)
      hne (by rw [hss])
  | none =>
    rw [connect_miss' n (some k') l k' (by simp [ht']) ht' hs']
    intro hcon
    have hnew := Option.some.inj (by simpa using hcon :
      (some { keyspace := k'
              default_consistency_level := if truthyLevel l then l else none
              id := n.ensure_cluster.fresh } : Option Session) = some s1)
    have hid : n.ensure_cluster.fresh = s1.id := congrArg Session.id hnew
    have hlt : s1.id < n.fresh := hInv.1 (k, s1) (dget_mem _ _ _ hs1)
    have hle : n.fresh ≤ n.ensure_cluster.fresh := ensure_fresh_le n
    omega

/-- Claim C5: on a manager whose session cache respects the mock driver's
freshness invariants, `connect(k)` returns a session; a second `connect(k)`
returns the identical cached Session and leaves the whole manager state
untouched; `connect(k')` for a different keyspace returns a distinct
Session; and the cache keeps at most one Session per keyspace. -/
theorem C5_connect_memoizes_per_keyspace (m : CassandraCluster) (k k' : String)
    (l1 l2 l3 : Option Nat) (hk : k ≠ "") (hk' : k' ≠ "") (hne : k ≠ k')
    (hInv : SessionInv m) :
    (m.connect (some k) l1).1.isSome = true
    ∧ ((m.connect (some k) l1).2.connect (some k) l2).1 = (m.connect (some k) l1).1
    ∧ ((m.connect (some k) l1).2.connect (some k) l2).2 = (m.connect (some k) l1).2
    ∧ ((m.connect (some k) l1).2.connect (some k') l3).1 ≠ (m.connect (some k) l1).1
    ∧ (m.connect (some k) l1).2.__session.Pairwise (fun p q => p.1 ≠ q.1) := by
  obtain ⟨s1, h1, h1c, h1s⟩ := connect_first_result m k l1 hk
  have hInv1 := SessionInv_connect m (some k) l1 hInv
  have htwice := connect_twice m k l1 l2 hk
  refine ⟨by simp [h1], by rw [htwice], by rw [htwice], ?_, hInv1.2.2⟩
  rw [h1]
  exact connect_other_keyspace_ne _ k k' l3 s1 hk' (Ne.symm hne) hInv1 h1c

/-- Witness for `C5_connect_memoizes_per_keyspace` on the freshly bound
`mgr0` with keyspaces "ks" and "ks2". -/
theorem C5_connect_memoizes_per_keyspace_witness :
    (("ks" : String) ≠ "" ∧ ("ks2" : String) ≠ "" ∧ ("ks" : String) ≠ "ks2"
      ∧ SessionInv mgr0)
    ∧ ((mgr0.connect (some "ks") none).1.isSome = true
      ∧ ((mgr0.connect (some "ks") none).2.connect (some "ks") (some 3)).1
          = (mgr0.connect (some "ks") none).1
      ∧ ((mgr0.connect (some "ks") none).2.connect (some "ks") (some 3)).2
          = (mgr0.connect (some "ks") none).2
      ∧ ((mgr0.connect (some "ks") none).2.connect (some "ks2") none).1
          ≠ (mgr0.connect (some "ks") none).1
      ∧ (mgr0.connect (some "ks") none).2.__session.Pairwise (fun p q => p.1 ≠ q.1)) :=
  ⟨⟨by decide, by decide, by decide, SessionInv_nil mgr0 (by decide)⟩,
   C5_connect_memoizes_per_keyspace mgr0 "ks" "ks2" none (some 3) none
     (by decide) (by decide) (by decide) (SessionInv_nil mgr0 (by decide))⟩

/-- Claim C10: with no active context (`stack.top` is `None`), the
`connection` property returns `None` and neither constructs a ClusterHandle
nor modifies any manager state; with an active context lacking the local
reference, it lazily creates one via `connect()` and stores it. -/
theorem C10_connection_requires_context (m : CassandraCluster) (ctx : AppCtx) :
    m.connection none = (none, m, none)
    ∧ (ctx.cassandra_cluster = none →
        (m.connection (some ctx)).1 = (m.connect none none).2.cluster
        ∧ (m.connection (some ctx)).1.isSome = true
        ∧ (m.connection (some ctx)).2.1 = (m.connect none none).2
        ∧ (m.connection (some ctx)).2.2
            = some { cassandra_cluster := (m.connect none none).2.cluster }) := by
  refine ⟨rfl, ?_⟩
  intro h
  obtain ⟨v⟩ := ctx
  have h2 : v = none := h
  subst h2
  exact ⟨rfl, connect_cluster_isSome m none none, rfl, rfl⟩

/-- Witness for `C10_connection_requires_context` on `mgr0` and an empty
context slot. -/
theorem C10_connection_requires_context_witness :
    (AppCtx.mk none).cassandra_cluster = none
    ∧ mgr0.connection none = (none, mgr0, none)
    ∧ (mgr0.connection (some (AppCtx.mk none))).1 = (mgr0.connect none none).2.cluster
    ∧ (mgr0.connection (some (AppCtx.mk none))).1.isSome = true
    ∧ (mgr0.connection (some (AppCtx.mk none))).2.1 = (mgr0.connect none none).2
    ∧ (mgr0.connection (some (AppCtx.mk none))).2.2
        = some { cassandra_cluster := (mgr0.connect none none).2.cluster } :=
  ⟨by decide, (C10_connection_requires_context mgr0 (AppCtx.mk none)).1,
   ((C10_connection_requires_context mgr0 (AppCtx.mk none)).2 (by decide)).1,
   ((C10_connection_requires_context mgr0 (AppCtx.mk none)).2 (by decide)).2.1,
   ((C10_connection_requires_context mgr0 (AppCtx.mk none)).2 (by decide)).2.2.1,
   ((C10_connection_requires_context mgr0 (AppCtx.mk none)).2 (by decide)).2.2.2⟩


theorem resolvedKeyspace_def (m : CassandraCluster) (ks : Option String) :
    (if truthy ks then ks else m.keyspace) = resolvedKeyspace m ks := rfl

theorem resolved_idem (w m : CassandraCluster) (ks : Option String)
    (h : w.keyspace = m.keyspace) :
    resolvedKeyspace w (resolvedKeyspace m ks) = resolvedKeyspace m ks := by
  unfold resolvedKeyspace
  by_cases h1 : truthy ks
  · simp [h1]
  · simp [h1, h, ite_self]

theorem eqe_queries_get (s : CassandraCluster) (K : Option String) :
    (dget (ensure_queries_entry s K).__queries K).getD []
      = (dget s.__queries K).getD [] := by
  unfold ensure_queries_entry
  by_cases h : (dget s.__queries K).isSome
  · simp [h]
  · rw [if_neg (by simpa using h)]
    have h2 : dget (dset s.__queries K ([] : List (String × PreparedStatement))) K
        = some [] := dget_dset_self _ _ _
    cases hd : dget s.__queries K
    · simp [h2]
    · rw [hd] at h; simp at h

theorem eqe_keyspace (s : CassandraCluster) (K : Option String) :
    (ensure_queries_entry s K).keyspace = s.keyspace := by
  unfold ensure_queries_entry
  split <;> rfl

theorem eqe_session (s : CassandraCluster) (K : Option String) :
    (ensure_queries_entry s K).__session = s.__session := by
  unfold ensure_queries_entry
  split <;> rfl

theorem eqe_cachedStatement (s : CassandraCluster) (K : Option String) (name : String) :
    cachedStatement (ensure_queries_entry s K) K name = cachedStatement s K name := by
  unfold cachedStatement
  rw [eqe_queries_get]

theorem execute_error_case (m : CassandraCluster) (name : String) (ksArg : Option String)
    (params : List String)
    (hnc : cachedStatement m (resolvedKeyspace m ksArg) name = none) :
    (m.execute_prepared name ksArg none params).1
        = Except.error (PyError.valueError (noQueryMsg name))
    ∧ cachedStatement (m.execute_prepared name ksArg none params).2
        (resolvedKeyspace m ksArg) name = none := by
  have hx : (dget (ensure_queries_entry (m.connect (resolvedKeyspace m ksArg) none).2
      (resolvedKeyspace m ksArg)).__queries (resolvedKeyspace m ksArg)).getD []
      = (dget m.__queries (resolvedKeyspace m ksArg)).getD [] := by
    rw [eqe_queries_get, connect_queries]
  have hnc2 : cachedStatement (m.connect (resolvedKeyspace m ksArg) none).2
      (resolvedKeyspace m ksArg) name = none := by
    simpa [cachedStatement, connect_queries] using hnc
  simp only [cachedStatement] at hnc
  unfold CassandraCluster.execute_prepared
  simp only [resolvedKeyspace_def, hx, hnc, Option.isNone_none, if_true]
  refine ⟨trivial, ?_⟩
  rw [eqe_cachedStatement]
  exact hnc2

theorem prepare_query_no_valueError (m : CassandraCluster) (name q : String)
    (ks : Option String) (force : Bool) (msg : String) :
    (m.prepare_query name q ks force).1 ≠ Except.error (PyError.valueError msg) := by
  unfold CassandraCluster.prepare_query
  simp only [resolvedKeyspace_def]
  split
  · split
    · simp
    · simp
  · split
    · simp
    · simp

theorem prepare_query_prepares (w : CassandraCluster) (name q : String) (ks : Option String)
    (ht : truthy (resolvedKeyspace w ks) = true)
    (hnc : cachedStatement w (resolvedKeyspace w ks) name = none) :
    ∃ st, (w.prepare_query name q ks false).1 = Except.ok st ∧ st.text = q
      ∧ cachedStatement (w.prepare_query name q ks false).2 (resolvedKeyspace w ks) name
          = some st := by
  obtain ⟨sess, hsess⟩ := Option.isSome_iff_exists.mp
    (connect_fst_isSome w (resolvedKeyspace w ks) none
      (by rw [resolved_idem w w ks rfl]; exact ht))
  have hx : (dget (ensure_queries_entry (w.connect (resolvedKeyspace w ks) none).2
      (resolvedKeyspace w ks)).__queries (resolvedKeyspace w ks)).getD []
      = (dget w.__queries (resolvedKeyspace w ks)).getD [] := by
    rw [eqe_queries_get, connect_queries]
  have hnc2 : dget ((dget w.__queries (resolvedKeyspace w ks)).getD []) name = none := hnc
  unfold CassandraCluster.prepare_query
  simp only [resolvedKeyspace_def, hx, hnc2, hsess, Option.isNone_none, Bool.or_true,
    Bool.false_or, if_true]
  refine ⟨_, rfl, rfl, ?_⟩
  simp [cachedStatement, dget_dset_self]

theorem execute_no_valueError_of_cached (m : CassandraCluster) (name : String)
    (ksArg qOpt : Option String) (params : List String) (st : PreparedStatement)
    (hc : cachedStatement m (resolvedKeyspace m ksArg) name = some st) (msg : String) :
    (m.execute_prepared name ksArg qOpt params).1
      ≠ Except.error (PyError.valueError msg) := by
  have hx : (dget (ensure_queries_entry (m.connect (resolvedKeyspace m ksArg) none).2
      (resolvedKeyspace m ksArg)).__queries (resolvedKeyspace m ksArg)).getD []
      = (dget m.__queries (resolvedKeyspace m ksArg)).getD [] := by
    rw [eqe_queries_get, connect_queries]
  have hc2 : dget ((dget m.__queries (resolvedKeyspace m ksArg)).getD []) name = some st := hc
  unfold CassandraCluster.execute_prepared
  simp only [resolvedKeyspace_def, hx, hc2, Option.isNone_some, Bool.false_eq_true, if_false]
  repeat' split
  all_goals simp

theorem execute_no_valueError_of_query (m : CassandraCluster) (name : String)
    (ksArg : Option String) (q : String) (params : List String) (msg : String) :
    (m.execute_prepared name ksArg (some q) params).1
      ≠ Except.error (PyError.valueError msg) := by
  cases hd : dget ((dget m.__queries (resolvedKeyspace m ksArg)).getD []) name with
  | some st => exact execute_no_valueError_of_cached m name ksArg (some q) params st hd msg
  | none =>
    have hx : (dget (ensure_queries_entry (m.connect (resolvedKeyspace m ksArg) none).2
        (resolvedKeyspace m ksArg)).__queries (resolvedKeyspace m ksArg)).getD []
        = (dget m.__queries (resolvedKeyspace m ksArg)).getD [] := by
      rw [eqe_queries_get, connect_queries]
    have hP1 := prepare_query_no_valueError
      (ensure_queries_entry (m.connect (resolvedKeyspace m ksArg) none).2
        (resolvedKeyspace m ksArg)) name q (resolvedKeyspace m ksArg) false msg
    unfold CassandraCluster.execute_prepared
    simp only [resolvedKeyspace_def, hx, hd, Option.isNone_none, if_true]
    rcases hP : (ensure_queries_entry (m.connect (resolvedKeyspace m ksArg) none).2
        (resolvedKeyspace m ksArg)).prepare_query name q (resolvedKeyspace m ksArg) false
      with ⟨fst, snd⟩
    rw [hP] at hP1
    cases fst with
    | ok st =>
      repeat' split
      all_goals simp_all
    | error e => simpa using hP1

theorem execute_prepares (m : CassandraCluster) (name : String) (ksArg : Option String)
    (q : String) (params : List String)
    (hnc : cachedStatement m (resolvedKeyspace m ksArg) name = none)
    (htK : truthy (resolvedKeyspace m ksArg) = true) :
    ∃ st, cachedStatement (m.execute_prepared name ksArg (some q) params).2
        (resolvedKeyspace m ksArg) name = some st ∧ st.text = q := by
  have hx : (dget (ensure_queries_entry (m.connect (resolvedKeyspace m ksArg) none).2
      (resolvedKeyspace m ksArg)).__queries (resolvedKeyspace m ksArg)).getD []
      = (dget m.__queries (resolvedKeyspace m ksArg)).getD [] := by
    rw [eqe_queries_get, connect_queries]
  have hnc2 : dget ((dget m.__queries (resolvedKeyspace m ksArg)).getD []) name = none := hnc
  have hks2 : (ensure_queries_entry (m.connect (resolvedKeyspace m ksArg) none).2
      (resolvedKeyspace m ksArg)).keyspace = m.keyspace := by
    rw [eqe_keyspace, connect_keyspace_eq]
  have hresolved := resolved_idem (ensure_queries_entry
      (m.connect (resolvedKeyspace m ksArg) none).2 (resolvedKeyspace m ksArg)) m ksArg hks2
  have hncS2 : cachedStatement (ensure_queries_entry
      (m.connect (resolvedKeyspace m ksArg) none).2 (resolvedKeyspace m ksArg))
      (resolvedKeyspace (ensure_queries_entry
        (m.connect (resolvedKeyspace m ksArg) none).2 (resolvedKeyspace m ksArg))
        (resolvedKeyspace m ksArg)) name = none := by
    rw [hresolved, eqe_cachedStatement]
    simpa [cachedStatement, connect_queries] using hnc
  obtain ⟨st, hok, htext, hcached⟩ := prepare_query_prepares
    (ensure_queries_entry (m.connect (resolvedKeyspace m ksArg) none).2
      (resolvedKeyspace m ksArg)) name q (resolvedKeyspace m ksArg)
    (by rw [hresolved]; exact htK) hncS2
  rw [hresolved] at hcached
  unfold CassandraCluster.execute_prepared
  simp only [resolvedKeyspace_def, hx, hnc2, Option.isNone_none, if_true]
  rcases hP : (ensure_queries_entry (m.connect (resolvedKeyspace m ksArg) none).2
      (resolvedKeyspace m ksArg)).prepare_query name q (resolvedKeyspace m ksArg) false
    with ⟨fst, snd⟩
  rw [hP] at hok hcached
  simp only at hok
  subst hok
  repeat' split
  all_goals simp_all


/-- Claim C3 (amended): `execute_prepared(name)` fails with the `ValueError`
carrying the query name if and only if no statement for `name` is cached
under the effective keyspace and no query text is supplied; in that error
case no prepared statement is added for `(keyspace, name)` (though the call
may create the cluster, a session, and an empty per-keyspace statement map);
and when query text IS supplied in that situation (with a truthy effective
keyspace) the statement is compiled and cached under `(keyspace, name)`. -/
theorem C3_execute_unprepared_value_error (m : CassandraCluster) (name : String)
    (ksArg qOpt : Option String) (params : List String) :
    ((m.execute_prepared name ksArg qOpt params).1
        = Except.error (PyError.valueError (noQueryMsg name))
      ↔ (cachedStatement m (resolvedKeyspace m ksArg) name = none ∧ qOpt = none))
    ∧ (cachedStatement m (resolvedKeyspace m ksArg) name = none → qOpt = none →
        cachedStatement (m.execute_prepared name ksArg qOpt params).2
          (resolvedKeyspace m ksArg) name = none)
    ∧ (∀ q, qOpt = some q →
        cachedStatement m (resolvedKeyspace m ksArg) name = none →
        truthy (resolvedKeyspace m ksArg) = true →
        ∃ st, cachedStatement (m.execute_prepared name ksArg qOpt params).2
            (resolvedKeyspace m ksArg) name = some st ∧ st.text = q) := by
  refine ⟨⟨?_, ?_⟩, ?_, ?_⟩
  · intro hres
    constructor
    · cases hcc : cachedStatement m (resolvedKeyspace m ksArg) name with
      | none => rfl
      | some st =>
        exact absurd hres (execute_no_valueError_of_cached m name ksArg qOpt params st hcc _)
    · cases qOpt with
      | none => rfl
      | some q => exact absurd hres (execute_no_valueError_of_query m name ksArg q params _)
  · rintro ⟨hnc, rfl⟩
    exact (execute_error_case m name ksArg params hnc).1
  · intro hnc hq
    subst hq
    exact (execute_error_case m name ksArg params hnc).2
  · rintro q rfl hnc htK
    exact execute_prepares m name ksArg q params hnc htK

/-- Witness for `C3_execute_unprepared_value_error` on `mgr0`: the error
fires for the unprepared name "q" with no query text and adds no statement;
supplying the text instead caches it. -/
theorem C3_execute_unprepared_value_error_witness :
    cachedStatement mgr0 (resolvedKeyspace mgr0 none) "q" = none
    ∧ (mgr0.execute_prepared "q" none none []).1
        = Except.error (PyError.valueError (noQueryMsg "q"))
    ∧ cachedStatement (mgr0.execute_prepared "q" none none []).2
        (resolvedKeyspace mgr0 none) "q" = none
    ∧ truthy (resolvedKeyspace mgr0 none) = true
    ∧ ∃ st, cachedStatement (mgr0.execute_prepared "q" none (some "SELECT 1") []).2
        (resolvedKeyspace mgr0 none) "q" = some st ∧ st.text = "SELECT 1" :=
  ⟨by decide,
   (C3_execute_unprepared_value_error mgr0 "q" none none []).1.mpr ⟨by decide, rfl⟩,
   (C3_execute_unprepared_value_error mgr0 "q" none none []).2.1 (by decide) rfl,
   by decide,
   (C3_execute_unprepared_value_error mgr0 "q" none (some "SELECT 1") []).2.2
     "SELECT 1" rfl (by decide) (by decide)⟩

end FlaskCassandra
